import Mathlib

/-!
Shallow embedding of the YearInMotion runtime core: the gist-backed state
store (src/utils/state-manager.ts), the year-progress generator's duplicate
check (src/generators/year-progress-generator.ts), the shared retry wrapper
(src/upload/base-uploader.ts), the upload orchestrator (src/upload/index.ts),
the Instagram container-poll publish sequence (src/upload/instagram-uploader.ts),
the YouTube publish sequence (src/upload/youtube-uploader.ts), and the
conditional state write of the main control flow (src/index.ts).

Asynchronous effects are modelled denotationally: a promise that may reject
becomes an `Except String` value; the behavior of the remote gist transport
is an explicit parameter of the store model; `Promise.allSettled` over the
uploader tasks becomes a list of per-task settled outcomes; sleeps and
network calls are recorded in explicit traces.
-/

namespace YearInMotion

/-- A JavaScript primitive value, as used for `lastValue : string | number`
and for the opaque `Record<string, unknown>` payloads. -/
inductive JSValue where
  | str (s : String)
  | num (n : Int)
  | bool (b : Bool)
deriving DecidableEq, Repr

/-- `StateData` from src/types/index.ts: the durable record kept in the gist.
`year` is optional (`year?: number`) and `extra` models the open index
signature `[key: string]: unknown`. -/
structure StateData where
  lastValue : JSValue
  lastDate : String
  contentType : String
  year : Option Int
  extra : List (String × JSValue)
deriving DecidableEq, Repr

/-- What the `last_posted.json` slot of the gist holds: the file may be
absent (or have no content), hold text that `JSON.parse` rejects, or hold a
serialized `StateData`. -/
inductive SlotContent where
  | absent
  | unparsable
  | record (s : StateData)
deriving DecidableEq, Repr

/-- Model of the remote gist together with its transport behavior: the slot
content, and whether the `gists.get` / `gists.update` calls throw. -/
structure GistStore where
  slot : SlotContent
  fetchErr : Option String
  writeErr : Option String
deriving DecidableEq, Repr

/-- Error message standing for a `JSON.parse` failure on the slot content. -/
def parseFailureMsg : String := "Unexpected token in JSON"

/-- The body of `getLastPosted`'s `try` block: `octokit.gists.get` (which may
throw), then the absence check, then `JSON.parse` (which may throw). -/
def getLastPostedTry (g : GistStore) : Except String (Option StateData) :=
  match g.fetchErr with
  | some m => Except.error m
  | none =>
    match g.slot with
    | SlotContent.absent => Except.ok none
    | SlotContent.unparsable => Except.error parseFailureMsg
    | SlotContent.record s => Except.ok (some s)

/-- `getLastPosted` from src/utils/state-manager.ts: the whole body runs in a
`try`/`catch` whose catch arm logs and returns `null`, so the returned
promise never rejects. -/
def getLastPosted (g : GistStore) : Except String (Option StateData) :=
  match getLastPostedTry g with
  | Except.ok r => Except.ok r
  | Except.error _ => Except.ok none

/-- The fetched state as a plain optional record (the value `getLastPosted`
always resolves to). -/
def fetchedState (g : GistStore) : Option StateData :=
  match getLastPostedTry g with
  | Except.ok r => r
  | Except.error _ => none

/-- The spread `{ ...state, lastDate: new Date().toISOString() }` inside
`updateLastPosted`: every caller-supplied field kept, `lastDate` restamped. -/
def stampLastDate (s : StateData) (now : String) : StateData :=
  { s with lastDate := now }

/-- `updateLastPosted` from src/utils/state-manager.ts: build the restamped
record, call `octokit.gists.update` (whose failure is rethrown by the catch
arm), and return the new record.  The returned store carries the new slot. -/
def updateLastPosted (g : GistStore) (state : StateData) (now : String) :
    Except String (GistStore × StateData) :=
  match g.writeErr with
  | some m => Except.error m
  | none =>
    let newState := stampLastDate state now
    Except.ok ({ g with slot := SlotContent.record newState }, newState)

/-- The decision rule inside `shouldPost`, applied to the fetched record. -/
def shouldPostGiven (lastState : Option StateData) (currentValue : JSValue)
    (contentType : String) (currentYear : Option Int) : Bool :=
  match lastState with
  | none => true
  | some s =>
    if s.contentType != contentType then true
    else if currentYear.isSome && (s.year != currentYear) then true
    else s.lastValue != currentValue

/-- `shouldPost` from src/utils/state-manager.ts: `await getLastPosted`, then
the decision rule. -/
def shouldPost (g : GistStore) (currentValue : JSValue) (contentType : String)
    (currentYear : Option Int) : Except String Bool := do
  let lastState ← getLastPosted g
  pure (shouldPostGiven lastState currentValue contentType currentYear)

/-- `createInitialState` from src/utils/state-manager.ts; the optional spread
`...(year !== undefined && \x7b year \x7d)` is the `year` option. -/
def createInitialState (contentType : String) (value : JSValue)
    (year : Option Int) (now : String) : StateData :=
  { lastValue := value, lastDate := now, contentType := contentType,
    year := year, extra := [] }

/-- The `contentType` tag of `YearProgressGenerator`. -/
def yearProgressContentType : String := "year-progress"

/-- The fields of the computed `YearProgress` that `shouldGenerate` reads. -/
structure YearProgress where
  year : Int
  percent : Int
deriving DecidableEq, Repr

/-- `YearProgressGenerator.shouldGenerate`: null check, content-type check,
unconditional year comparison against the computed year, then strict
inequality of `lastValue` against the computed percent. -/
def shouldGenerate (yp : YearProgress) (lastState : Option StateData) : Bool :=
  match lastState with
  | none => true
  | some s =>
    if s.contentType != yearProgressContentType then true
    else if s.year != some yp.year then true
    else s.lastValue != JSValue.num yp.percent

/-- The spec's decision rule, written from its words: post iff no record, or
content-type mismatch, or a supplied current year differing from the stored
one, or a changed value. -/
def specShouldPost (lastState : Option StateData) (currentValue : JSValue)
    (contentType : String) (currentYear : Option Int) : Prop :=
  lastState = none ∨
    ∃ s, lastState = some s ∧
      (s.contentType ≠ contentType ∨
       (∃ y, currentYear = some y ∧ s.year ≠ some y) ∨
       s.lastValue ≠ currentValue)

/-- The `Platform` union type from src/types/index.ts. -/
inductive Platform where
  | instagram
  | facebook
  | youtube
  | tiktok
deriving DecidableEq, Repr

/-- An opaque `Record<string, unknown>` payload returned by a publish
sequence. -/
abbrev RecordMap : Type := List (String × JSValue)

/-- `UploadResult` from src/types/index.ts. -/
structure UploadResult where
  success : Bool
  platform : Platform
  result : Option RecordMap
  error : Option String
deriving DecidableEq

/-- `UploadOptions` from src/types/index.ts. -/
structure UploadOptions where
  maxRetries : Option Nat
  baseDelay : Option Nat
  dryRun : Bool
deriving DecidableEq

/-- The shape of `RETRY_CONFIG` in src/config/index.ts. -/
structure RetryConfig where
  maxRetries : Nat
  baseDelay : Nat
deriving DecidableEq

/-- `RETRY_CONFIG` from src/config/index.ts. -/
def RETRY_CONFIG : RetryConfig := { maxRetries := 3, baseDelay := 1000 }

/-- The marker result of the dry-run branch of `BaseUploader.upload`. -/
def dryRunRecord : RecordMap := [("dryRun", JSValue.bool true)]

/-- The fallback error text after the retry loop (unreachable for
`maxRetries ≥ 1`). -/
def maxRetriesExceededMsg : String := "Max retries exceeded"

/-- Observable behavior of one `upload` call: the settled `UploadResult`,
how many times the publish sequence ran, which 1-indexed attempts were
started, and the backoff sleeps performed in order. -/
structure UploadTrace where
  result : UploadResult
  attemptsMade : Nat
  calls : List Nat
  delays : List Nat
deriving DecidableEq

/-- The retry loop of `BaseUploader.upload` (src/upload/base-uploader.ts):
`for (attempt = 1; attempt <= maxRetries; attempt++)`, running the whole
publish sequence `impl attempt`, returning on success, returning the last
message when `attempt === maxRetries`, and otherwise sleeping
`2^(attempt-1) * baseDelay` before the next attempt.  `fuel` counts the
loop iterations still allowed (`maxRetries - attempt + 1`). -/
def uploadGo (p : Platform) (impl : Nat → Except String RecordMap)
    (maxRetries baseDelay : Nat) : Nat → Nat → UploadTrace
  | _, 0 =>
    { result := { success := false, platform := p, result := none,
                  error := some maxRetriesExceededMsg },
      attemptsMade := 0, calls := [], delays := [] }
  | attempt, Nat.succ fuel =>
    match impl attempt with
    | Except.ok r =>
      { result := { success := true, platform := p, result := some r,
                    error := none },
        attemptsMade := 1, calls := [attempt], delays := [] }
    | Except.error m =>
      if attempt == maxRetries then
        { result := { success := false, platform := p, result := none,
                      error := some m },
          attemptsMade := 1, calls := [attempt], delays := [] }
      else
        let d := 2 ^ (attempt - 1) * baseDelay
        let rest := uploadGo p impl maxRetries baseDelay (attempt + 1) fuel
        { result := rest.result, attemptsMade := rest.attemptsMade + 1,
          calls := attempt :: rest.calls, delays := d :: rest.delays }

/-- `BaseUploader.upload`: resolve the options against `RETRY_CONFIG`,
short-circuit on dry run, else run the retry loop from attempt 1. -/
def upload (p : Platform) (impl : Nat → Except String RecordMap)
    (options : UploadOptions) : UploadTrace :=
  let maxRetries := options.maxRetries.getD RETRY_CONFIG.maxRetries
  let baseDelay := options.baseDelay.getD RETRY_CONFIG.baseDelay
  if options.dryRun then
    { result := { success := true, platform := p, result := some dryRunRecord,
                  error := none },
      attemptsMade := 0, calls := [], delays := [] }
  else
    uploadGo p impl maxRetries baseDelay 1 maxRetries

/-- How one uploader task handed to `Promise.allSettled` settles: fulfilled
with an `UploadResult`, or rejected outright. -/
inductive SettledOutcome where
  | fulfilled (v : UploadResult)
  | rejected (msg : String)
deriving DecidableEq

/-- The `results` field of `MultiUploadResult`. -/
structure UploadResults where
  successful : List UploadResult
  failed : List UploadResult
deriving DecidableEq

/-- `MultiUploadResult` from src/types/index.ts. -/
structure MultiUploadResult where
  success : Bool
  results : UploadResults
deriving DecidableEq

/-- The `else` arm of the `results.forEach` in `uploadToAll`: a rejected
task is coerced to a synthetic failed entry carrying the rejection
message and the uploader's platform. -/
def settleOutcome (platform : Platform) (o : SettledOutcome) : UploadResult :=
  match o with
  | SettledOutcome.fulfilled v => v
  | SettledOutcome.rejected m =>
    { success := false, platform := platform, result := none, error := some m }

/-- The `results.forEach` partition of `uploadToAll`: fulfilled results go
to `successful` or `failed` by their `success` flag, rejections go to
`failed` as synthetic entries; both lists keep task order. -/
def processSettled : List (Platform × SettledOutcome) →
    List UploadResult × List UploadResult
  | [] => ([], [])
  | t :: rest =>
    let v := settleOutcome t.1 t.2
    let acc := processSettled rest
    if v.success then (v :: acc.1, acc.2) else (acc.1, v :: acc.2)

/-- `UploadOrchestrator.uploadToAll` (src/upload/index.ts), denotationally:
each configured uploader's task is started and settles independently
(`tasks` pairs each uploader's platform with how its task settles); the
settled outcomes are partitioned and aggregated with
`success: successful.length > 0`. -/
def uploadToAll (tasks : List (Platform × SettledOutcome)) : MultiUploadResult :=
  let parts := processSettled tasks
  { success := decide (0 < parts.1.length),
    results := { successful := parts.1, failed := parts.2 } }

/-- The settled `UploadResult` of every task, in task order. -/
def settledList (tasks : List (Platform × SettledOutcome)) : List UploadResult :=
  tasks.map (fun t => settleOutcome t.1 t.2)

/-- Step 8 of `main` (src/index.ts): write the new record iff the aggregate
upload result succeeded, else skip the write.  The boolean of the returned
pair records whether a write was performed. -/
def mainStateWrite (g : GistStore) (uploadResults : MultiUploadResult)
    (newState : StateData) (now : String) : Except String (GistStore × Bool) :=
  if uploadResults.success then
    match updateLastPosted g newState now with
    | Except.ok gw => Except.ok (gw.1, true)
    | Except.error m => Except.error m
  else
    Except.ok (g, false)

instance instDecidableEqExcept {ε α : Type} [DecidableEq ε] [DecidableEq α] :
    DecidableEq (Except ε α) := fun x y =>
  match x, y with
  | Except.ok a, Except.ok b =>
    if h : a = b then isTrue (by rw [h])
    else isFalse (by intro hc; cases hc; exact h rfl)
  | Except.ok _, Except.error _ => isFalse (by intro hc; cases hc)
  | Except.error _, Except.ok _ => isFalse (by intro hc; cases hc)
  | Except.error e, Except.error f =>
    if h : e = f then isTrue (by rw [h])
    else isFalse (by intro hc; cases hc; exact h rfl)

/-- What one status query inside `pollContainerStatus` yields: a
`status_code` string, or a transport failure of the `axios.get` call. -/
inductive PollStep where
  | status (code : String)
  | transportErr (msg : String)
deriving DecidableEq, Repr

/-- Observable behavior of one `pollContainerStatus` call: resolution or
rejection, the number of status queries performed, and the sleeps performed
in order (milliseconds). -/
structure PollTrace where
  outcome : Except String Unit
  polls : Nat
  sleeps : List Nat
deriving DecidableEq

/-- The message of the `ERROR`-status throw in `pollContainerStatus`. -/
def containerFailedMsg : String := "Instagram container processing failed"

/-- The message of the timeout throw after the poll loop. -/
def containerTimeoutMsg : String := "Instagram container processing timeout"

/-- The loop of `InstagramUploader.pollContainerStatus`
(src/upload/instagram-uploader.ts): for `i` from 0 while fuel remains,
query the status (a transport error is rethrown by the catch arm), return
on `FINISHED`, throw on `ERROR` (the thrown error passes through the catch
arm and is rethrown), otherwise sleep 2000 ms and continue; when the loop
ends, throw the timeout error. -/
def pollGo (poll : Nat → PollStep) : Nat → Nat → PollTrace
  | _, 0 => { outcome := Except.error containerTimeoutMsg, polls := 0, sleeps := [] }
  | i, Nat.succ fuel =>
    match poll i with
    | PollStep.transportErr m =>
      { outcome := Except.error m, polls := 1, sleeps := [] }
    | PollStep.status code =>
      if code == "FINISHED" then
        { outcome := Except.ok (), polls := 1, sleeps := [] }
      else if code == "ERROR" then
        { outcome := Except.error containerFailedMsg, polls := 1, sleeps := [] }
      else
        let rest := pollGo poll (i + 1) fuel
        { outcome := rest.outcome, polls := rest.polls + 1,
          sleeps := 2000 :: rest.sleeps }

/-- `pollContainerStatus` with its default `maxAttempts = 30`, applied to
the container's per-poll status behavior. -/
def pollContainerStatus (poll : Nat → PollStep) (maxAttempts : Nat) : PollTrace :=
  pollGo poll 0 maxAttempts

/-- A non-terminal poll answer: a status code that is neither `FINISHED`
nor `ERROR` (e.g. `IN_PROGRESS`). -/
def nonTerminalStep (p : PollStep) : Prop :=
  ∃ c, p = PollStep.status c ∧ c ≠ "FINISHED" ∧ c ≠ "ERROR"

/-- How one loop iteration of `pollContainerStatus` resolves the answer of
one status query: `none` when the loop continues, `some r` when the
iteration ends the call with resolution or rejection `r`. -/
def pollStepTerminal (p : PollStep) : Option (Except String Unit) :=
  match p with
  | PollStep.transportErr m => some (Except.error m)
  | PollStep.status c =>
    if c == "FINISHED" then some (Except.ok ())
    else if c == "ERROR" then some (Except.error containerFailedMsg)
    else none

/-- The hosting-related environment variables read by
`InstagramUploader.uploadToTemporaryHost`; each is `string | undefined`. -/
structure HostingEnv where
  cloudinaryCloudName : Option String
  cloudinaryApiKey : Option String
  cloudinaryApiSecret : Option String
  awsS3Bucket : Option String
  awsAccessKeyId : Option String
deriving DecidableEq

/-- JavaScript truthiness of a `string | undefined` environment variable:
present and non-empty. -/
def envTruthy : Option String → Bool
  | none => false
  | some s => s != ""

/-- The configuration error thrown when no public video host is set up
(string concatenation as in the source). -/
def noHostingMsg : String :=
  "No video hosting configured. Please set up Cloudinary or AWS S3 credentials. " ++
    "See SETUP.md for instructions."

/-- The error thrown by the unimplemented S3 branch. -/
def s3NotImplementedMsg : String := "S3 upload not implemented yet"

/-- `InstagramUploader.uploadToTemporaryHost`: choose Cloudinary when its
three variables are truthy (its outcome is the external `cloudinaryResult`),
else S3 when its two variables are truthy (which throws, unimplemented),
else throw the configuration error. -/
def uploadToTemporaryHost (env : HostingEnv)
    (cloudinaryResult : Except String String) : Except String String :=
  if envTruthy env.cloudinaryCloudName && envTruthy env.cloudinaryApiKey &&
      envTruthy env.cloudinaryApiSecret then
    cloudinaryResult
  else if envTruthy env.awsS3Bucket && envTruthy env.awsAccessKeyId then
    Except.error s3NotImplementedMsg
  else
    Except.error noHostingMsg

/-- `InstagramUploader.uploadImpl`, abstracted after its first step: the
publish sequence first obtains a public video URL via
`uploadToTemporaryHost` (its failure propagates out of the attempt), then
runs the container steps (`rest`) on that URL. -/
def instagramUploadImpl (env : HostingEnv)
    (cloudinaryResult : Except String String)
    (rest : String → Except String RecordMap) : Except String RecordMap :=
  match uploadToTemporaryHost env cloudinaryResult with
  | Except.error m => Except.error m
  | Except.ok url => rest url

/-- Whether any public video host is configured, per the truthiness checks
of `uploadToTemporaryHost`. -/
def hostingConfigured (env : HostingEnv) : Bool :=
  (envTruthy env.cloudinaryCloudName && envTruthy env.cloudinaryApiKey &&
    envTruthy env.cloudinaryApiSecret) ||
  (envTruthy env.awsS3Bucket && envTruthy env.awsAccessKeyId)

/-- The network round-trips performed inside `YouTubeUploader.uploadImpl`:
the OAuth token refresh (`refreshAccessToken`), the resumable-session
initiation POST, and the file-body PUT. -/
inductive YTRequest where
  | tokenRefresh
  | initUpload
  | putUpload
deriving DecidableEq, Repr

/-- The remote behavior seen by one YouTube publish attempt: the token
endpoint's answer, the `location` header of the initiation response
(`Option` because the header may be missing), and the video id carried by
the PUT response. -/
structure YTEnv where
  tokenResponse : Except String String
  initLocation : Except String (Option String)
  putResponseId : Except String String
deriving DecidableEq

/-- The error thrown when the initiation response has no `location`. -/
def noUploadUrlMsg : String := "Failed to get upload URL from YouTube"

/-- Observable behavior of one `YouTubeUploader.uploadImpl` run: its
resolution or rejection, and the network round-trips performed in order. -/
structure YTTrace where
  outcome : Except String RecordMap
  requests : List YTRequest
deriving DecidableEq

/-- The published URL built from the video id. -/
def youtubeShortsUrl (videoId : String) : String :=
  "https://youtube.com/shorts/" ++ videoId

/-- `YouTubeUploader.uploadImpl` (src/upload/youtube-uploader.ts): refresh
the access token (one POST), initiate the resumable upload (one POST) and
require its `location` header, PUT the file body to that URL, and return
`\x7b videoId, url \x7d` taken from the PUT response — no polling and no
separate publish call. -/
def youtubeUploadImpl (env : YTEnv) : YTTrace :=
  match env.tokenResponse with
  | Except.error m =>
    { outcome := Except.error m, requests := [YTRequest.tokenRefresh] }
  | Except.ok _ =>
    match env.initLocation with
    | Except.error m =>
      { outcome := Except.error m,
        requests := [YTRequest.tokenRefresh, YTRequest.initUpload] }
    | Except.ok none =>
      { outcome := Except.error noUploadUrlMsg,
        requests := [YTRequest.tokenRefresh, YTRequest.initUpload] }
    | Except.ok (some _) =>
      match env.putResponseId with
      | Except.error m =>
        { outcome := Except.error m,
          requests := [YTRequest.tokenRefresh, YTRequest.initUpload,
                       YTRequest.putUpload] }
      | Except.ok videoId =>
        { outcome := Except.ok
            [("videoId", JSValue.str videoId),
             ("url", JSValue.str (youtubeShortsUrl videoId))],
          requests := [YTRequest.tokenRefresh, YTRequest.initUpload,
                       YTRequest.putUpload] }

/-! Concrete sample inputs used to exercise the theorems below. -/

def sampleExtra : List (String × JSValue) := [("dayOfYear", JSValue.num 152)]

def sampleState : StateData :=
  { lastValue := JSValue.num 37, lastDate := "2025-01-01T00:00:00.000Z",
    contentType := yearProgressContentType, year := some 2025,
    extra := sampleExtra }

def sampleNow : String := "2025-06-01T12:00:00.000Z"

def transportMsg : String := "Bad credentials"

def boomMsg : String := "Network timeout"

def finishedCode : String := "FINISHED"

def errorCode : String := "ERROR"

def inProgressCode : String := "IN_PROGRESS"

def pollFinishedAt2 : Nat → PollStep := fun j =>
  if j < 2 then PollStep.status inProgressCode else PollStep.status finishedCode

def pollErrorAt1 : Nat → PollStep := fun j =>
  if j < 1 then PollStep.status inProgressCode else PollStep.status errorCode

def pollNeverDone : Nat → PollStep := fun _ => PollStep.status inProgressCode

def noHostEnv : HostingEnv :=
  { cloudinaryCloudName := none, cloudinaryApiKey := none,
    cloudinaryApiSecret := none, awsS3Bucket := none, awsAccessKeyId := none }

def sampleToken : String := "tok"

def sampleUploadUrl : String := "https://upload.example/session"

def sampleVideoId : String := "abc123"

def ytAllOkEnv : YTEnv :=
  { tokenResponse := Except.ok sampleToken,
    initLocation := Except.ok (some sampleUploadUrl),
    putResponseId := Except.ok sampleVideoId }

def emptyStore : GistStore :=
  { slot := SlotContent.absent, fetchErr := none, writeErr := none }

def okRecordStore : GistStore :=
  { slot := SlotContent.record sampleState, fetchErr := none, writeErr := none }

def fetchFailStore : GistStore :=
  { slot := SlotContent.record sampleState, fetchErr := some transportMsg,
    writeErr := none }

def writeFailStore : GistStore :=
  { slot := SlotContent.absent, fetchErr := none,
    writeErr := some transportMsg }

def sampleYearProgress : YearProgress := { year := 2025, percent := 37 }

def ytOkResult : UploadResult :=
  { success := true, platform := Platform.youtube,
    result := some [("videoId", JSValue.str sampleVideoId)], error := none }

def fbFailResult : UploadResult :=
  { success := false, platform := Platform.facebook, result := none,
    error := some boomMsg }

def synthIgFail : UploadResult :=
  { success := false, platform := Platform.instagram, result := none,
    error := some transportMsg }

def sampleTasks : List (Platform × SettledOutcome) :=
  [(Platform.instagram, SettledOutcome.rejected transportMsg),
   (Platform.facebook, SettledOutcome.fulfilled fbFailResult),
   (Platform.youtube, SettledOutcome.fulfilled ytOkResult)]

def allFailTasks : List (Platform × SettledOutcome) :=
  [(Platform.facebook, SettledOutcome.fulfilled fbFailResult),
   (Platform.instagram, SettledOutcome.rejected transportMsg)]

def failedUR : MultiUploadResult :=
  { success := false, results := { successful := [], failed := [fbFailResult] } }

def okUR : MultiUploadResult :=
  { success := true, results := { successful := [ytOkResult], failed := [] } }

def writtenStore : GistStore :=
  { slot := SlotContent.record (stampLastDate sampleState sampleNow),
    fetchErr := none, writeErr := none }

def alwaysFailImpl : Nat → Except String RecordMap := fun _ =>
  Except.error boomMsg

def retryOpts : UploadOptions :=
  { maxRetries := some 3, baseDelay := some 100, dryRun := false }

def igRest : String → Except String RecordMap := fun _ => Except.ok []

def igNoHostImpl : Nat → Except String RecordMap := fun _ =>
  instagramUploadImpl noHostEnv (Except.ok sampleUploadUrl) igRest

def igOpts : UploadOptions :=
  { maxRetries := some 2, baseDelay := some 50, dryRun := false }

def noHostFailResult : UploadResult :=
  { success := false, platform := Platform.instagram, result := none,
    error := some noHostingMsg }

/-! Theorems. -/

theorem getLastPosted_eq_ok (g : GistStore) :
    getLastPosted g = Except.ok (fetchedState g) := by
  unfold getLastPosted fetchedState
  cases getLastPostedTry g <;> rfl

theorem shouldPost_eq (g : GistStore) (v : JSValue) (ct : String)
    (cy : Option Int) :
    shouldPost g v ct cy =
      Except.ok (shouldPostGiven (fetchedState g) v ct cy) := by
  unfold shouldPost
  rw [getLastPosted_eq_ok]
  rfl

theorem shouldPostGiven_some (s : StateData) (v : JSValue) (ct : String)
    (cy : Option Int) :
    shouldPostGiven (some s) v ct cy =
      ((s.contentType != ct) || (cy.isSome && (s.year != cy)) ||
        (s.lastValue != v)) := by
  unfold shouldPostGiven
  by_cases h1 : (s.contentType != ct) = true
  · simp [h1]
  · by_cases h2 : (cy.isSome && (s.year != cy)) = true
    · simp [h1, h2]
    · simp [h1, h2]

theorem shouldPostGiven_iff (ls : Option StateData) (v : JSValue)
    (ct : String) (cy : Option Int) :
    shouldPostGiven ls v ct cy = true ↔ specShouldPost ls v ct cy := by
  cases ls with
  | none => simp [shouldPostGiven, specShouldPost]
  | some s =>
    rw [shouldPostGiven_some]
    cases cy with
    | none => simp [specShouldPost, bne_iff_ne]
    | some y =>
      simp [specShouldPost, bne_iff_ne]
      tauto

theorem shouldGenerate_eq_shouldPostGiven (yp : YearProgress)
    (ls : Option StateData) :
    shouldGenerate yp ls =
      shouldPostGiven ls (JSValue.num yp.percent) yearProgressContentType
        (some yp.year) := by
  cases ls with
  | none => rfl
  | some s =>
    simp only [shouldGenerate, shouldPostGiven, Option.isSome_some,
      Bool.true_and]

/-- C1: for every store behavior and every `(currentValue, contentType,
currentYear)` triple, the state-store helper `shouldPost` (over the record
its fetch yields) resolves to `true` iff the fetched record is null, or its
`contentType` differs, or the supplied current year differs from the stored
`year`, or its `lastValue` differs strictly from `currentValue`; and
`YearProgressGenerator.shouldGenerate` satisfies the same rule with the
current value and year taken from its computed year progress. -/
theorem claim1_duplicate_suppression_rule :
    (∀ (g : GistStore) (v : JSValue) (ct : String) (cy : Option Int),
      shouldPost g v ct cy = Except.ok true ↔
        specShouldPost (fetchedState g) v ct cy) ∧
    (∀ (yp : YearProgress) (ls : Option StateData),
      shouldGenerate yp ls = true ↔
        specShouldPost ls (JSValue.num yp.percent) yearProgressContentType
          (some yp.year)) := by
  constructor
  · intro g v ct cy
    rw [shouldPost_eq, ← shouldPostGiven_iff]
    exact ⟨fun h => by injection h, fun h => by rw [h]⟩
  · intro yp ls
    rw [shouldGenerate_eq_shouldPostGiven]
    exact shouldPostGiven_iff ls (JSValue.num yp.percent)
      yearProgressContentType (some yp.year)

/-- C1 witness: concrete evaluations of both functions. -/
theorem claim1_duplicate_suppression_rule_witness :
    (shouldPost okRecordStore (JSValue.num 38) yearProgressContentType
        (some 2025) = Except.ok true ↔
      specShouldPost (fetchedState okRecordStore) (JSValue.num 38)
        yearProgressContentType (some 2025)) ∧
    (shouldGenerate sampleYearProgress (some sampleState) = true ↔
      specShouldPost (some sampleState) (JSValue.num sampleYearProgress.percent)
        yearProgressContentType (some sampleYearProgress.year)) :=
  ⟨claim1_duplicate_suppression_rule.1 okRecordStore _ _ _,
   claim1_duplicate_suppression_rule.2 sampleYearProgress _⟩

/-- C5: the store client's error contract is asymmetric — `getLastPosted`
always resolves (any transport error, unparsable content, or absent slot
yields `null`), while `updateLastPosted` rejects with every underlying
store failure and succeeds only when the store write does. -/
theorem claim5_fetch_soft_write_hard :
    (∀ g : GistStore, getLastPosted g = Except.ok (fetchedState g)) ∧
    (∀ g : GistStore,
      (g.fetchErr ≠ none ∨ g.slot = SlotContent.absent ∨
        g.slot = SlotContent.unparsable) →
      getLastPosted g = Except.ok none) ∧
    (∀ (g : GistStore) (s : StateData) (now m : String),
      g.writeErr = some m → updateLastPosted g s now = Except.error m) ∧
    (∀ (g : GistStore) (s : StateData) (now : String) (r : GistStore × StateData),
      updateLastPosted g s now = Except.ok r → g.writeErr = none) := by
  refine ⟨getLastPosted_eq_ok, ?_, ?_, ?_⟩
  · intro g h
    unfold getLastPosted getLastPostedTry
    cases hf : g.fetchErr with
    | some m => rfl
    | none =>
      cases hs : g.slot with
      | absent => rfl
      | unparsable => rfl
      | record s =>
        rcases h with h | h | h
        · exact absurd hf h
        · rw [hs] at h; cases h
        · rw [hs] at h; cases h
  · intro g s now m h
    unfold updateLastPosted
    rw [h]
  · intro g s now r h
    unfold updateLastPosted at h
    cases hw : g.writeErr with
    | none => rfl
    | some m => rw [hw] at h; cases h

/-- C5 witness: a store whose read transport fails still fetches `null`,
and a store whose write transport fails rejects the update with that
failure. -/
theorem claim5_fetch_soft_write_hard_witness :
    getLastPosted fetchFailStore = Except.ok none ∧
    updateLastPosted writeFailStore sampleState sampleNow =
      Except.error transportMsg :=
  ⟨claim5_fetch_soft_write_hard.2.1 fetchFailStore
      (Or.inl (by simp [fetchFailStore])),
   claim5_fetch_soft_write_hard.2.2.1 writeFailStore sampleState sampleNow
      transportMsg rfl⟩

/-- C7: writing a record and immediately fetching from the same store
returns a record equal to the written one on `lastValue`, `contentType`,
`year` and the extra fields, while `lastDate` equals the write-time
timestamp rather than the caller's value. -/
theorem claim7_write_then_fetch_roundtrip (g : GistStore) (s : StateData)
    (now : String) (hw : g.writeErr = none) (hf : g.fetchErr = none) :
    ∃ g2 w, updateLastPosted g s now = Except.ok (g2, w) ∧
      fetchedState g2 = some w ∧
      w.lastValue = s.lastValue ∧ w.contentType = s.contentType ∧
      w.year = s.year ∧ w.extra = s.extra ∧ w.lastDate = now := by
  unfold updateLastPosted
  rw [hw]
  refine ⟨_, _, rfl, ?_, rfl, rfl, rfl, rfl, rfl⟩
  unfold fetchedState getLastPostedTry
  simp [hf]

/-- C7 witness: the round trip at a concrete record whose `lastDate`
differs from the write time. -/
theorem claim7_write_then_fetch_roundtrip_witness :
    ∃ g2 w, updateLastPosted emptyStore sampleState sampleNow =
        Except.ok (g2, w) ∧
      fetchedState g2 = some w ∧
      w.lastValue = sampleState.lastValue ∧
      w.contentType = sampleState.contentType ∧
      w.year = sampleState.year ∧ w.extra = sampleState.extra ∧
      w.lastDate = sampleNow :=
  claim7_write_then_fetch_roundtrip emptyStore sampleState sampleNow rfl rfl

theorem processSettled_eq (tasks : List (Platform × SettledOutcome)) :
    processSettled tasks =
      ((settledList tasks).filter (fun v => v.success),
       (settledList tasks).filter (fun v => !v.success)) := by
  induction tasks with
  | nil => rfl
  | cons t rest ih =>
    cases h : (settleOutcome t.1 t.2).success with
    | true => simp [processSettled, settledList, List.filter_cons, h, ih]
    | false => simp [processSettled, settledList, List.filter_cons, h, ih]

theorem uploadToAll_successful_eq (tasks : List (Platform × SettledOutcome)) :
    (uploadToAll tasks).results.successful =
      (settledList tasks).filter (fun v => v.success) := by
  show (processSettled tasks).1 = _
  rw [processSettled_eq]

theorem uploadToAll_failed_eq (tasks : List (Platform × SettledOutcome)) :
    (uploadToAll tasks).results.failed =
      (settledList tasks).filter (fun v => !v.success) := by
  show (processSettled tasks).2 = _
  rw [processSettled_eq]

theorem uploadToAll_success_eq (tasks : List (Platform × SettledOutcome)) :
    (uploadToAll tasks).success =
      decide (0 < (uploadToAll tasks).results.successful.length) := rfl

/-- C3: `uploadToAll` — with every uploader's task settling independently —
collects one settled outcome per configured uploader, partitions fulfilled
results by their `success` flag, coerces an outright rejection into a
synthetic failed entry carrying the rejection message (so the aggregation
itself never rejects), and reports aggregate success exactly when the
successful list is non-empty. -/
theorem claim3_uploadToAll_aggregation (tasks : List (Platform × SettledOutcome)) :
    ((uploadToAll tasks).success = true ↔
      (uploadToAll tasks).results.successful ≠ []) ∧
    (uploadToAll tasks).results.successful =
      (settledList tasks).filter (fun v => v.success) ∧
    (uploadToAll tasks).results.failed =
      (settledList tasks).filter (fun v => !v.success) ∧
    (∀ p m, (p, SettledOutcome.rejected m) ∈ tasks →
      ({ success := false, platform := p, result := none,
         error := some m } : UploadResult) ∈ (uploadToAll tasks).results.failed) := by
  refine ⟨?_, uploadToAll_successful_eq tasks, uploadToAll_failed_eq tasks, ?_⟩
  · rw [uploadToAll_success_eq]
    simp [List.length_pos]
  · intro p m hmem
    rw [uploadToAll_failed_eq]
    refine List.mem_filter.mpr ⟨?_, rfl⟩
    exact List.mem_map_of_mem (fun t => settleOutcome t.1 t.2) hmem

/-- C3 witness: a concrete three-uploader run with one rejection, one
fulfilled failure and one fulfilled success. -/
theorem claim3_uploadToAll_aggregation_witness :
    ((uploadToAll sampleTasks).success = true ↔
      (uploadToAll sampleTasks).results.successful ≠ []) ∧
    synthIgFail ∈ (uploadToAll sampleTasks).results.failed :=
  ⟨(claim3_uploadToAll_aggregation sampleTasks).1,
   (claim3_uploadToAll_aggregation sampleTasks).2.2.2 Platform.instagram
     transportMsg (by simp [sampleTasks])⟩

/-- C10: the partition invariant of `uploadToAll` — the successful and
failed lists together hold exactly one settled result per configured
uploader (their lengths sum to the uploader count and their concatenation
is a permutation of the settled outcomes), every successful entry has
`success = true`, and every failed entry has `success = false`. -/
theorem claim10_partition_invariant (tasks : List (Platform × SettledOutcome)) :
    (uploadToAll tasks).results.successful.length +
      (uploadToAll tasks).results.failed.length = tasks.length ∧
    ((uploadToAll tasks).results.successful ++
      (uploadToAll tasks).results.failed).Perm (settledList tasks) ∧
    (∀ v ∈ (uploadToAll tasks).results.successful, v.success = true) ∧
    (∀ v ∈ (uploadToAll tasks).results.failed, v.success = false) := by
  have hperm :
      ((uploadToAll tasks).results.successful ++
        (uploadToAll tasks).results.failed).Perm (settledList tasks) := by
    rw [uploadToAll_successful_eq, uploadToAll_failed_eq]
    exact List.filter_append_perm (fun v => v.success) (settledList tasks)
  refine ⟨?_, hperm, ?_, ?_⟩
  · have := hperm.length_eq
    rw [List.length_append] at this
    rw [this]
    exact List.length_map tasks (fun t => settleOutcome t.1 t.2)
  · intro v hv
    rw [uploadToAll_successful_eq] at hv
    exact (List.mem_filter.mp hv).2
  · intro v hv
    rw [uploadToAll_failed_eq] at hv
    simpa using (List.mem_filter.mp hv).2

/-- C10 witness: the invariant evaluated on the concrete three-uploader
run. -/
theorem claim10_partition_invariant_witness :
    (uploadToAll sampleTasks).results.successful.length +
      (uploadToAll sampleTasks).results.failed.length = sampleTasks.length ∧
    ytOkResult.success = true :=
  ⟨(claim10_partition_invariant sampleTasks).1,
   (claim10_partition_invariant sampleTasks).2.2.1 ytOkResult (by decide)⟩

/-- C4: after the upload step, `main` writes the new state record exactly
when the aggregate upload result succeeded: on aggregate failure the write
is skipped and the store is unchanged; on aggregate success (with the
write transport up) the slot now holds the restamped record; a performed
write implies aggregate success and vice versa; and when every settled
result failed the aggregate is false. -/
theorem claim4_conditional_state_write :
    (∀ (g : GistStore) (ur : MultiUploadResult) (ns : StateData) (now : String),
      ur.success = false → mainStateWrite g ur ns now = Except.ok (g, false)) ∧
    (∀ (g : GistStore) (ur : MultiUploadResult) (ns : StateData) (now : String),
      ur.success = true → g.writeErr = none →
      mainStateWrite g ur ns now =
        Except.ok ({ g with slot := SlotContent.record (stampLastDate ns now) },
          true)) ∧
    (∀ (g : GistStore) (ur : MultiUploadResult) (ns : StateData) (now : String)
        (g2 : GistStore) (b : Bool),
      mainStateWrite g ur ns now = Except.ok (g2, b) →
      (b = true ↔ ur.success = true)) ∧
    (∀ tasks : List (Platform × SettledOutcome),
      (∀ v ∈ settledList tasks, v.success = false) →
      (uploadToAll tasks).success = false) := by
  refine ⟨?_, ?_, ?_, ?_⟩
  · intro g ur ns now h
    unfold mainStateWrite
    rw [h]
    rfl
  · intro g ur ns now h hw
    unfold mainStateWrite
    rw [h]
    unfold updateLastPosted
    rw [hw]
    rfl
  · intro g ur ns now g2 b h
    cases hu : ur.success with
    | false =>
      unfold mainStateWrite at h
      rw [hu] at h
      simp only [Bool.false_eq_true, if_false] at h
      injection h with h2
      cases h2
      simp
    | true =>
      unfold mainStateWrite at h
      rw [hu] at h
      simp only [if_true] at h
      cases hup : updateLastPosted g ns now with
      | ok gw =>
        rw [hup] at h
        injection h with h2
        cases h2
        simp
      | error m =>
        rw [hup] at h
        cases h
  · intro tasks h
    rw [uploadToAll_success_eq, uploadToAll_successful_eq]
    have : (settledList tasks).filter (fun v => v.success) = [] :=
      List.filter_eq_nil_iff.mpr (fun v hv => by simp [h v hv])
    rw [this]
    rfl

/-- C4 witness: a fully-failed aggregate leaves a concrete store unchanged,
and a successful aggregate writes the restamped record to it. -/
theorem claim4_conditional_state_write_witness :
    mainStateWrite emptyStore failedUR sampleState sampleNow =
      Except.ok (emptyStore, false) ∧
    mainStateWrite emptyStore okUR sampleState sampleNow =
      Except.ok (writtenStore, true) ∧
    (uploadToAll allFailTasks).success = false :=
  ⟨claim4_conditional_state_write.1 emptyStore failedUR sampleState sampleNow
      rfl,
   claim4_conditional_state_write.2.1 emptyStore okUR sampleState sampleNow
      rfl rfl,
   claim4_conditional_state_write.2.2.2 allFailTasks (by decide)⟩

theorem uploadGo_trace (p : Platform) (impl : Nat → Except String RecordMap)
    (M d : Nat) :
    ∀ fuel a, a + fuel = M + 1 → 1 ≤ a →
      (1 ≤ fuel → 1 ≤ (uploadGo p impl M d a fuel).attemptsMade) ∧
      (uploadGo p impl M d a fuel).attemptsMade ≤ fuel ∧
      (uploadGo p impl M d a fuel).calls =
        List.range' a (uploadGo p impl M d a fuel).attemptsMade ∧
      (uploadGo p impl M d a fuel).delays =
        (List.range ((uploadGo p impl M d a fuel).attemptsMade - 1)).map
          (fun k => 2 ^ (a - 1 + k) * d) := by
  intro fuel
  induction fuel with
  | zero =>
    intro a _ _
    exact ⟨fun h => absurd h (by omega), by simp [uploadGo],
      by simp [uploadGo], by simp [uploadGo]⟩
  | succ fuel ih =>
    intro a ha h1
    cases himpl : impl a with
    | ok r =>
      refine ⟨fun _ => ?_, ?_, ?_, ?_⟩ <;>
        simp [uploadGo, himpl, List.range'_one]
    | error m =>
      by_cases haM : a = M
      · have hbeq : (a == M) = true := by simp [haM]
        refine ⟨fun _ => ?_, ?_, ?_, ?_⟩ <;>
          simp [uploadGo, himpl, hbeq, List.range'_one]
      · have hbeq : (a == M) = false := by simp [haM]
        have hfuel : 1 ≤ fuel := by omega
        obtain ⟨hA1, hAle, hcalls, hdelays⟩ := ih (a + 1) (by omega) (by omega)
        have hA1f := hA1 hfuel
        have hstep : uploadGo p impl M d a (fuel + 1) =
            { result := (uploadGo p impl M d (a + 1) fuel).result,
              attemptsMade := (uploadGo p impl M d (a + 1) fuel).attemptsMade + 1,
              calls := a :: (uploadGo p impl M d (a + 1) fuel).calls,
              delays := 2 ^ (a - 1) * d ::
                (uploadGo p impl M d (a + 1) fuel).delays } := by
          simp [uploadGo, himpl, hbeq]
        have hAeq : (uploadGo p impl M d a (fuel + 1)).attemptsMade =
            (uploadGo p impl M d (a + 1) fuel).attemptsMade + 1 := by
          rw [hstep]
        have hCeq : (uploadGo p impl M d a (fuel + 1)).calls =
            a :: (uploadGo p impl M d (a + 1) fuel).calls := by
          rw [hstep]
        have hDeq : (uploadGo p impl M d a (fuel + 1)).delays =
            2 ^ (a - 1) * d :: (uploadGo p impl M d (a + 1) fuel).delays := by
          rw [hstep]
        obtain ⟨t, ht⟩ : ∃ t, (uploadGo p impl M d (a + 1) fuel).attemptsMade =
            t + 1 :=
          ⟨(uploadGo p impl M d (a + 1) fuel).attemptsMade - 1, by omega⟩
        refine ⟨fun _ => ?_, ?_, ?_, ?_⟩
        · rw [hAeq]; omega
        · rw [hAeq]; omega
        · rw [hCeq, hAeq, hcalls, ht]
          simp [List.range'_succ]
        · rw [hDeq, hAeq, hdelays, ht]
          simp only [Nat.add_sub_cancel, List.range_succ_eq_map,
            List.map_cons, List.map_map]
          refine congrArg₂ List.cons ?_ ?_
          · simp
          · apply List.map_congr_left
            intro k _
            simp only [Function.comp_apply, Nat.succ_eq_add_one]
            have h2 : a - 1 + (k + 1) = a + k := by omega
            rw [h2]

theorem uploadGo_all_fail (p : Platform) (impl : Nat → Except String RecordMap)
    (M d : Nat) :
    ∀ fuel a, a + fuel = M + 1 → 1 ≤ a → 1 ≤ fuel →
      (∀ k, a ≤ k → k ≤ M → ∃ m, impl k = Except.error m) →
      ∃ m, impl M = Except.error m ∧
        (uploadGo p impl M d a fuel).attemptsMade = fuel ∧
        (uploadGo p impl M d a fuel).result =
          { success := false, platform := p, result := none,
            error := some m } := by
  intro fuel
  induction fuel with
  | zero => intro a _ _ h0; exact absurd h0 (by omega)
  | succ fuel ih =>
    intro a ha h1 _ hall
    obtain ⟨m, hm⟩ := hall a le_rfl (by omega)
    by_cases haM : a = M
    · have hf0 : fuel = 0 := by omega
      have hbeq : (a == M) = true := by simp [haM]
      subst hf0
      refine ⟨m, ?_, ?_, ?_⟩
      · rw [← haM]; exact hm
      · simp [uploadGo, hm, hbeq]
      · simp [uploadGo, hm, hbeq]
    · have hbeq : (a == M) = false := by simp [haM]
      have hfuel : 1 ≤ fuel := by omega
      obtain ⟨m2, hm2, hA, hres⟩ := ih (a + 1) (by omega) (by omega) hfuel
        (fun k hk1 hk2 => hall k (by omega) hk2)
      refine ⟨m2, hm2, ?_, ?_⟩
      · simp [uploadGo, hm, hbeq, hA]
      · simp [uploadGo, hm, hbeq, hres]

/-- C2: for options `\x7b maxRetries := n ≥ 1, baseDelay := d \x7d` (the
default ceiling being `RETRY_CONFIG.maxRetries = 3`), `upload` runs the
whole publish sequence at most `n` times, restarting it from its first
step on each retry (attempt `k` invokes the full sequence `impl k`, so the
started attempts are exactly `1, …, attemptsMade`); after each failed
attempt short of the last the backoff sleeps are exactly
`d·2^0, d·2^1, …`; and when every attempt fails, `upload` settles (never
rejects) with `\x7b success := false, platform, error := last message \x7d`
after exactly `n` attempts. -/
theorem claim2_upload_retry_backoff (p : Platform)
    (impl : Nat → Except String RecordMap) (n d : Nat) (hn : 1 ≤ n) :
    RETRY_CONFIG.maxRetries = 3 ∧
    (upload p impl
        { maxRetries := some n, baseDelay := some d, dryRun := false }).attemptsMade ≤ n ∧
    (upload p impl
        { maxRetries := some n, baseDelay := some d, dryRun := false }).calls =
      List.range' 1
        (upload p impl
          { maxRetries := some n, baseDelay := some d, dryRun := false }).attemptsMade ∧
    (upload p impl
        { maxRetries := some n, baseDelay := some d, dryRun := false }).delays =
      (List.range
        ((upload p impl
          { maxRetries := some n, baseDelay := some d, dryRun := false }).attemptsMade - 1)).map
        (fun k => d * 2 ^ k) ∧
    ((∀ k, 1 ≤ k → k ≤ n → ∃ m, impl k = Except.error m) →
      ∃ m, impl n = Except.error m ∧
        (upload p impl
          { maxRetries := some n, baseDelay := some d, dryRun := false }).attemptsMade = n ∧
        (upload p impl
          { maxRetries := some n, baseDelay := some d, dryRun := false }).result =
          { success := false, platform := p, result := none,
            error := some m }) := by
  have hupl : upload p impl
      { maxRetries := some n, baseDelay := some d, dryRun := false } =
      uploadGo p impl n d 1 n := rfl
  obtain ⟨_, hAle, hcalls, hdelays⟩ :=
    uploadGo_trace p impl n d n 1 (by omega) le_rfl
  refine ⟨rfl, ?_, ?_, ?_, ?_⟩
  · rw [hupl]; exact hAle
  · rw [hupl]; exact hcalls
  · rw [hupl]
    rw [hdelays]
    apply List.map_congr_left
    intro k _
    simp [Nat.mul_comm]
  · intro hall
    obtain ⟨m, hm, hA, hres⟩ :=
      uploadGo_all_fail p impl n d n 1 (by omega) le_rfl hn
        (fun k hk1 hk2 => hall k hk1 hk2)
    exact ⟨m, hm, by rw [hupl]; exact hA, by rw [hupl]; exact hres⟩

/-- C2 witness: a publish sequence that always fails, with
`maxRetries = 3, baseDelay = 100`: three attempts, delays 100 then 200,
settled failure carrying the last message. -/
theorem claim2_upload_retry_backoff_witness :
    (upload Platform.youtube alwaysFailImpl retryOpts).attemptsMade ≤ 3 ∧
    (upload Platform.youtube alwaysFailImpl retryOpts).delays = [100, 200] ∧
    (∃ m, alwaysFailImpl 3 = Except.error m ∧
      (upload Platform.youtube alwaysFailImpl retryOpts).attemptsMade = 3 ∧
      (upload Platform.youtube alwaysFailImpl retryOpts).result =
        { success := false, platform := Platform.youtube, result := none,
          error := some m }) :=
  ⟨(claim2_upload_retry_backoff Platform.youtube alwaysFailImpl 3 100
      (by decide)).2.1,
   by decide,
   (claim2_upload_retry_backoff Platform.youtube alwaysFailImpl 3 100
      (by decide)).2.2.2.2 (fun k _ _ => ⟨boomMsg, rfl⟩)⟩

theorem uploadToTemporaryHost_noHosting (env : HostingEnv)
    (cr : Except String String) (h : hostingConfigured env = false) :
    uploadToTemporaryHost env cr = Except.error noHostingMsg := by
  unfold hostingConfigured at h
  rcases Bool.or_eq_false_iff.mp h with ⟨h1, h2⟩
  unfold uploadToTemporaryHost
  rw [h1, h2]
  rfl

/-- C8: with neither Cloudinary nor S3 configured, every Instagram publish
attempt throws the hosting-configuration error as an ordinary error, so
the retry wrapper re-runs the full sequence on every one of the `n`
attempts, and `upload` finally settles (does not reject) with
`\x7b success := false, platform := instagram, error := the configuration
message \x7d`. -/
theorem claim8_instagram_config_error_retried (env : HostingEnv)
    (cr : Except String String) (rest : String → Except String RecordMap)
    (n d : Nat) (h : hostingConfigured env = false) (hn : 1 ≤ n) :
    (upload Platform.instagram (fun _ => instagramUploadImpl env cr rest)
        { maxRetries := some n, baseDelay := some d, dryRun := false }).attemptsMade = n ∧
    (upload Platform.instagram (fun _ => instagramUploadImpl env cr rest)
        { maxRetries := some n, baseDelay := some d, dryRun := false }).calls =
      List.range' 1 n ∧
    (upload Platform.instagram (fun _ => instagramUploadImpl env cr rest)
        { maxRetries := some n, baseDelay := some d, dryRun := false }).result =
      { success := false, platform := Platform.instagram, result := none,
        error := some noHostingMsg } := by
  have himpl : instagramUploadImpl env cr rest = Except.error noHostingMsg := by
    unfold instagramUploadImpl
    rw [uploadToTemporaryHost_noHosting env cr h]
  have hupl : upload Platform.instagram
      (fun _ => instagramUploadImpl env cr rest)
      { maxRetries := some n, baseDelay := some d, dryRun := false } =
      uploadGo Platform.instagram (fun _ => instagramUploadImpl env cr rest)
        n d 1 n := rfl
  obtain ⟨m, hm, hA, hres⟩ :=
    uploadGo_all_fail Platform.instagram
      (fun _ => instagramUploadImpl env cr rest) n d n 1 (by omega) le_rfl hn
      (fun k _ _ => ⟨noHostingMsg, himpl⟩)
  have hmeq : m = noHostingMsg := by
    rw [himpl] at hm
    injection hm with h2
    exact h2.symm
  obtain ⟨_, _, hcalls, _⟩ :=
    uploadGo_trace Platform.instagram
      (fun _ => instagramUploadImpl env cr rest) n d n 1 (by omega) le_rfl
  refine ⟨?_, ?_, ?_⟩
  · rw [hupl]; exact hA
  · rw [hupl, hcalls, hA]
  · rw [hupl, hres, hmeq]

/-- C8 witness: the unconfigured-hosting environment with 2 retries. -/
theorem claim8_instagram_config_error_retried_witness :
    hostingConfigured noHostEnv = false ∧
    (upload Platform.instagram igNoHostImpl igOpts).attemptsMade = 2 ∧
    (upload Platform.instagram igNoHostImpl igOpts).result = noHostFailResult :=
  ⟨rfl,
   (claim8_instagram_config_error_retried noHostEnv
      (Except.ok sampleUploadUrl) igRest 2 50 rfl (by decide)).1,
   (claim8_instagram_config_error_retried noHostEnv
      (Except.ok sampleUploadUrl) igRest 2 50 rfl (by decide)).2.2⟩

theorem pollGo_step (poll : Nat → PollStep) (i fuel : Nat) :
    pollGo poll i (fuel + 1) =
      match pollStepTerminal (poll i) with
      | some r => { outcome := r, polls := 1, sleeps := [] }
      | none =>
        { outcome := (pollGo poll (i + 1) fuel).outcome,
          polls := (pollGo poll (i + 1) fuel).polls + 1,
          sleeps := 2000 :: (pollGo poll (i + 1) fuel).sleeps } := by
  cases hp : poll i with
  | transportErr m => simp [pollGo, pollStepTerminal, hp]
  | status code =>
    by_cases h1 : (code == "FINISHED") = true
    · simp [pollGo, pollStepTerminal, hp, h1]
    · by_cases h2 : (code == "ERROR") = true
      · simp [pollGo, pollStepTerminal, hp, h1, h2]
      · simp [pollGo, pollStepTerminal, hp, h1, h2]

theorem pollGo_polls_le (poll : Nat → PollStep) :
    ∀ fuel i, (pollGo poll i fuel).polls ≤ fuel := by
  intro fuel
  induction fuel with
  | zero => intro i; simp [pollGo]
  | succ fuel ih =>
    intro i
    rw [pollGo_step]
    cases pollStepTerminal (poll i) with
    | some r => simp
    | none =>
      simp only
      exact Nat.succ_le_succ (ih (i + 1))

theorem pollGo_sleeps_2000 (poll : Nat → PollStep) :
    ∀ fuel i, ∀ s ∈ (pollGo poll i fuel).sleeps, s = 2000 := by
  intro fuel
  induction fuel with
  | zero => intro i s hs; simp [pollGo] at hs
  | succ fuel ih =>
    intro i s hs
    rw [pollGo_step] at hs
    cases hterm : pollStepTerminal (poll i) with
    | some r => rw [hterm] at hs; simp at hs
    | none =>
      rw [hterm] at hs
      simp only [List.mem_cons] at hs
      rcases hs with hs | hs
      · exact hs
      · exact ih (i + 1) s hs

theorem pollGo_first_terminal (poll : Nat → PollStep) :
    ∀ fuel i k r, k < fuel →
      (∀ j, j < k → pollStepTerminal (poll (i + j)) = none) →
      pollStepTerminal (poll (i + k)) = some r →
      (pollGo poll i fuel).outcome = r ∧
      (pollGo poll i fuel).polls = k + 1 ∧
      (pollGo poll i fuel).sleeps = List.replicate k 2000 := by
  intro fuel
  induction fuel with
  | zero => intro i k r hk; exact absurd hk (by omega)
  | succ fuel ih =>
    intro i k r hk hpre hterm
    cases k with
    | zero =>
      rw [Nat.add_zero] at hterm
      rw [pollGo_step, hterm]
      exact ⟨rfl, rfl, rfl⟩
    | succ k =>
      have h0 : pollStepTerminal (poll i) = none := by
        have := hpre 0 (by omega)
        rwa [Nat.add_zero] at this
      have hterm2 : pollStepTerminal (poll (i + 1 + k)) = some r := by
        have h3 : i + 1 + k = i + (k + 1) := by omega
        rw [h3]
        exact hterm
      have hpre2 : ∀ j, j < k → pollStepTerminal (poll (i + 1 + j)) = none := by
        intro j hj
        have h3 : i + 1 + j = i + (j + 1) := by omega
        rw [h3]
        exact hpre (j + 1) (by omega)
      obtain ⟨ho, hp, hs⟩ := ih (i + 1) k r (by omega) hpre2 hterm2
      rw [pollGo_step, h0]
      exact ⟨ho, by rw [hp], by rw [hs, List.replicate_succ]⟩

theorem pollGo_timeout (poll : Nat → PollStep) :
    ∀ fuel i, (∀ j, j < fuel → pollStepTerminal (poll (i + j)) = none) →
      (pollGo poll i fuel).outcome = Except.error containerTimeoutMsg ∧
      (pollGo poll i fuel).polls = fuel ∧
      (pollGo poll i fuel).sleeps = List.replicate fuel 2000 := by
  intro fuel
  induction fuel with
  | zero => intro i _; exact ⟨rfl, rfl, rfl⟩
  | succ fuel ih =>
    intro i h
    have h0 : pollStepTerminal (poll i) = none := by
      have := h 0 (by omega)
      rwa [Nat.add_zero] at this
    have h2 : ∀ j, j < fuel → pollStepTerminal (poll (i + 1 + j)) = none := by
      intro j hj
      have h3 : i + 1 + j = i + (j + 1) := by omega
      rw [h3]
      exact h (j + 1) (by omega)
    obtain ⟨ho, hp, hs⟩ := ih (i + 1) h2
    rw [pollGo_step, h0]
    exact ⟨ho, by rw [hp], by rw [hs, List.replicate_succ]⟩

theorem nonTerminal_terminal_none (p : PollStep) (h : nonTerminalStep p) :
    pollStepTerminal p = none := by
  obtain ⟨c, hp, h1, h2⟩ := h
  rw [hp]
  simp [pollStepTerminal, h1, h2]

/-- C6: within one publish attempt, `pollContainerStatus` queries the
container status at most 30 times with a 2000 ms sleep between consecutive
polls; it resolves at the first `FINISHED` poll, rejects immediately at the
first `ERROR` poll with no further polls in the attempt, and rejects with
the timeout error after 30 polls that never reach a terminal status. -/
theorem claim6_poll_container_status (poll : Nat → PollStep) :
    (pollContainerStatus poll 30).polls ≤ 30 ∧
    (∀ s ∈ (pollContainerStatus poll 30).sleeps, s = 2000) ∧
    (∀ k, k < 30 → (∀ j, j < k → nonTerminalStep (poll j)) →
      poll k = PollStep.status finishedCode →
      (pollContainerStatus poll 30).outcome = Except.ok () ∧
      (pollContainerStatus poll 30).polls = k + 1 ∧
      (pollContainerStatus poll 30).sleeps = List.replicate k 2000) ∧
    (∀ k, k < 30 → (∀ j, j < k → nonTerminalStep (poll j)) →
      poll k = PollStep.status errorCode →
      (pollContainerStatus poll 30).outcome =
        Except.error containerFailedMsg ∧
      (pollContainerStatus poll 30).polls = k + 1) ∧
    ((∀ j, j < 30 → nonTerminalStep (poll j)) →
      (pollContainerStatus poll 30).outcome =
        Except.error containerTimeoutMsg ∧
      (pollContainerStatus poll 30).polls = 30) := by
  refine ⟨pollGo_polls_le poll 30 0, pollGo_sleeps_2000 poll 30 0, ?_, ?_, ?_⟩
  · intro k hk hpre hfin
    have hterm : pollStepTerminal (poll (0 + k)) = some (Except.ok ()) := by
      rw [Nat.zero_add, hfin]
      simp [pollStepTerminal, finishedCode]
    have hpre2 : ∀ j, j < k → pollStepTerminal (poll (0 + j)) = none := by
      intro j hj
      rw [Nat.zero_add]
      exact nonTerminal_terminal_none _ (hpre j hj)
    exact pollGo_first_terminal poll 30 0 k (Except.ok ()) hk hpre2 hterm
  · intro k hk hpre herr
    have hterm : pollStepTerminal (poll (0 + k)) =
        some (Except.error containerFailedMsg) := by
      rw [Nat.zero_add, herr]
      simp [pollStepTerminal, errorCode]
    have hpre2 : ∀ j, j < k → pollStepTerminal (poll (0 + j)) = none := by
      intro j hj
      rw [Nat.zero_add]
      exact nonTerminal_terminal_none _ (hpre j hj)
    obtain ⟨ho, hp, _⟩ :=
      pollGo_first_terminal poll 30 0 k (Except.error containerFailedMsg) hk
        hpre2 hterm
    exact ⟨ho, hp⟩
  · intro h
    have h2 : ∀ j, j < 30 → pollStepTerminal (poll (0 + j)) = none := by
      intro j hj
      rw [Nat.zero_add]
      exact nonTerminal_terminal_none _ (h j hj)
    obtain ⟨ho, hp, _⟩ := pollGo_timeout poll 30 0 h2
    exact ⟨ho, hp⟩

/-- C6 witness: a container finishing on the third poll, one erroring on
the second poll, and one never reaching a terminal state. -/
theorem claim6_poll_container_status_witness :
    (pollContainerStatus pollFinishedAt2 30).outcome = Except.ok () ∧
    (pollContainerStatus pollFinishedAt2 30).polls = 3 ∧
    (pollContainerStatus pollErrorAt1 30).outcome =
      Except.error containerFailedMsg ∧
    (pollContainerStatus pollErrorAt1 30).polls = 2 ∧
    (pollContainerStatus pollNeverDone 30).outcome =
      Except.error containerTimeoutMsg ∧
    (pollContainerStatus pollNeverDone 30).polls = 30 := by
  have hfin := (claim6_poll_container_status pollFinishedAt2).2.2.1 2
    (by decide)
    (fun j hj => ⟨inProgressCode, by simp [pollFinishedAt2, hj], by decide,
      by decide⟩)
    (by simp [pollFinishedAt2])
  have herr := (claim6_poll_container_status pollErrorAt1).2.2.2.1 1
    (by decide)
    (fun j hj => ⟨inProgressCode, by simp [pollErrorAt1, hj], by decide,
      by decide⟩)
    (by simp [pollErrorAt1])
  have htime := (claim6_poll_container_status pollNeverDone).2.2.2.2
    (fun j _ => ⟨inProgressCode, rfl, by decide, by decide⟩)
  exact ⟨hfin.1, hfin.2.1, herr.1, herr.2, htime.1, htime.2⟩

/-- C9 counterexample: on a fully successful run the YouTube publish
sequence performs three network round-trips (the OAuth token-refresh POST
inside `uploadImpl`, the session-initiation POST, and the file PUT), not
two as claimed. -/
theorem claim9_counterexample_three_roundtrips :
    ¬ (∀ env : YTEnv,
        (∃ r, (youtubeUploadImpl env).outcome = Except.ok r) →
        (youtubeUploadImpl env).requests.length = 2) := by
  intro hcl
  exact absurd (hcl ytAllOkEnv ⟨_, rfl⟩) (by decide)

/-- C9 (amended): on a successful run the YouTube publish sequence performs
exactly three sequential network round-trips — a token refresh, then the
two upload round-trips: (1) initiate the upload session obtaining the
session URL, (2) transfer the full file body — with no polling and no
separate publish step, the response of the transfer step carrying the
published video id directly. -/
theorem claim9_youtube_publish_sequence (env : YTEnv) (tok loc vid : String)
    (h1 : env.tokenResponse = Except.ok tok)
    (h2 : env.initLocation = Except.ok (some loc))
    (h3 : env.putResponseId = Except.ok vid) :
    (youtubeUploadImpl env).requests =
      [YTRequest.tokenRefresh, YTRequest.initUpload, YTRequest.putUpload] ∧
    (youtubeUploadImpl env).outcome =
      Except.ok [("videoId", JSValue.str vid),
                 ("url", JSValue.str (youtubeShortsUrl vid))] := by
  unfold youtubeUploadImpl
  rw [h1, h2, h3]
  exact ⟨rfl, rfl⟩

/-- C9 witness: the all-successful remote behavior. -/
theorem claim9_youtube_publish_sequence_witness :
    ytAllOkEnv.tokenResponse = Except.ok sampleToken ∧
    (youtubeUploadImpl ytAllOkEnv).requests =
      [YTRequest.tokenRefresh, YTRequest.initUpload, YTRequest.putUpload] ∧
    (youtubeUploadImpl ytAllOkEnv).outcome =
      Except.ok [("videoId", JSValue.str sampleVideoId),
                 ("url", JSValue.str (youtubeShortsUrl sampleVideoId))] :=
  ⟨rfl,
   (claim9_youtube_publish_sequence ytAllOkEnv sampleToken sampleUploadUrl
      sampleVideoId rfl rfl rfl).1,
   (claim9_youtube_publish_sequence ytAllOkEnv sampleToken sampleUploadUrl
      sampleVideoId rfl rfl rfl).2⟩

end YearInMotion
